import Mathlib

/-!
# Verification of the oxDNA_analysis_tools simulation boilerplate

A shallow embedding of `oxDNA_analysis_tools/UTILS/boilerplate.py`:
the input composer `setup_simulation`, the scoped directory context
`PathContext`, and the `Simulation` lifecycle handle (`is_alive`, `run`,
`terminate`, `get_conf`, `get_conf_count`).

Filesystem state is modelled explicitly: a set of directories and a map
from absolute, normalized paths to file contents, together with the
process-wide current working directory.  Python exceptions are modelled
with `Except`; the error value carries the filesystem state at the point
the exception was raised, so "no partial state" claims are expressible.
-/

set_option autoImplicit false

namespace OxdnaBoilerplate

/-! ## Path arithmetic

Models the pieces of `os.path` the source uses: `join`, `basename`, and
existence checks that resolve a (possibly relative) path against the
current working directory.  Resolution normalizes away empty components
and `.` components (the source never uses `..`, which is left literal).
All functions recurse structurally on character lists so that concrete
instances reduce definitionally.
-/

/-- Split a character list at every `'/'` (like `str.split("/")`). -/
def splitSlash : List Char → List (List Char)
  | [] => [[]]
  | c :: rest =>
    let r := splitSlash rest
    if c = '/' then [] :: r
    else
      match r with
      | [] => [[c]]
      | h :: t => (c :: h) :: t

/-- The non-trivial path components of a string: split at `/`, dropping
empty components and `.` components. -/
def pathComponents (p : String) : List (List Char) :=
  (splitSlash p.data).filter (fun c => !c.isEmpty && c != ['.'])

/-- Does the path start with a slash (absolute path)? -/
def isAbsPath (p : String) : Bool :=
  match p.data with
  | '/' :: _ => true
  | _ => false

/-- Render a component list as an absolute path string (`[] ↦ "/"`). -/
def renderAbs (cs : List (List Char)) : String :=
  match cs with
  | [] => "/"
  | _ => String.mk (cs.foldl (fun a c => a ++ ('/' :: c)) [])

/-- Resolve a possibly relative path against the current working
directory, normalizing `.` and empty components (models what
`os.path.exists` / `os.chdir` do with relative paths). -/
def resolvePath (cwd p : String) : String :=
  if isAbsPath p then renderAbs (pathComponents p)
  else renderAbs (pathComponents cwd ++ pathComponents p)

/-- Does the path end with a slash? -/
def endsWithSlash (p : String) : Bool :=
  match p.data.getLast? with
  | some '/' => true
  | _ => false

/-- `os.path.join` for the cases the source exercises: an absolute second
argument wins; otherwise concatenate with a single separator. -/
def pjoin (a b : String) : String :=
  if isAbsPath b then b
  else if a = "" then b
  else if endsWithSlash a then a ++ b
  else a ++ "/" ++ b

/-- `os.path.basename`: the part after the last slash. -/
def basename (p : String) : String :=
  String.mk (((splitSlash p.data).getLast?).getD [])

/-- `q` lies strictly inside the directory `d`: `d ++ "/"` is a prefix of
`q` (both absolute, normalized). -/
def pathUnder (d q : String) : Bool :=
  (d.data ++ ['/']).isPrefixOf q.data

/-- Association-list lookup keyed by string equality. -/
def lookupEntry {β : Type} (l : List (String × β)) (q : String) : Option β :=
  match l with
  | [] => none
  | (a, d) :: t => if q = a then some d else lookupEntry t q

/-- String-list membership test. -/
def containsStr (l : List String) (q : String) : Bool :=
  match l with
  | [] => false
  | a :: t => if q = a then true else containsStr t q

/-- Drop every element satisfying the predicate. -/
def filterOut {α : Type} (pr : α → Bool) : List α → List α
  | [] => []
  | a :: t => if pr a then filterOut pr t else a :: filterOut pr t

/-- Is `q` the path `r` itself or strictly below it? -/
def underOrEq (r q : String) : Bool :=
  if q = r then true else pathUnder r q

/-- Is the final component of the path the literal `"."`?  `os.rmdir`
fails with `OSError(EINVAL)` on such a path (POSIX: rmdir of a path whose
final component is dot fails), which is how `shutil.rmtree(".")` ends. -/
def lastComponentIsDot (p : String) : Bool :=
  match (splitSlash p.data).getLast? with
  | some ['.'] => true
  | _ => false

/-! ## Filesystem model -/

/-- Contents of a file in the model. -/
inductive FileData where
  /-- Opaque byte contents (topology / configuration files). -/
  | bytes (tag : String)
  /-- The serialized engine input file: a flat key-value mapping. -/
  | inputText (m : List (String × String))
  /-- A serialized JSON dictionary (the forces side file). -/
  | jsonText (m : List (String × String))
  deriving DecidableEq, Repr

/-- The filesystem: current working directory, existing directories, and
files (absolute normalized path ↦ contents). -/
structure FS where
  cwd : String
  dirs : List String
  files : List (String × FileData)
  deriving DecidableEq, Repr

/-- Errors the embedded code can raise. -/
inductive SimError where
  /-- Line 99: the output directory already exists and
  `kill_out_dir` was not set. -/
  | directoryConflict
  /-- `os.mkdir` on an existing path (`FileExistsError`). -/
  | fileExistsErr
  /-- `shutil.copyfile` with a missing source (`FileNotFoundError`). -/
  | fileNotFound
  /-- `os.rmdir` on a path whose final component is `"."`
  (`OSError [Errno 22] Invalid argument`), raised out of
  `shutil.rmtree` after the contents were already deleted. -/
  | osErrorInvalid
  deriving DecidableEq, Repr

/-- `os.path.exists`: true if the resolved path is a directory or a file. -/
def FS.existsPath (fs : FS) (p : String) : Bool :=
  let r := resolvePath fs.cwd p
  containsStr fs.dirs r || (lookupEntry fs.files r).isSome

/-- `shutil.rmtree`: recursively delete the directory's contents, then
`os.rmdir` the directory itself.  When the path's final component is the
literal `"."` (e.g. `rmtree(".")`), the contents are deleted but the
final `os.rmdir` raises `OSError(EINVAL)`: the error carries the state
with the contents gone and the emptied directory still in place.  Other
rmdir failure modes (permissions, concurrent modification) are outside
the model: on any other path the call removes the whole tree, directory
included, and succeeds. -/
def FS.rmtree (fs : FS) (p : String) : Except (SimError × FS) FS :=
  if lastComponentIsDot p then
    .error (.osErrorInvalid,
      { fs with
        dirs := filterOut (fun q => pathUnder (resolvePath fs.cwd p) q) fs.dirs,
        files := filterOut (fun e => pathUnder (resolvePath fs.cwd p) e.1) fs.files })
  else
    .ok { fs with
      dirs := filterOut (fun q => underOrEq (resolvePath fs.cwd p) q) fs.dirs,
      files := filterOut (fun e => underOrEq (resolvePath fs.cwd p) e.1) fs.files }

/-- `os.mkdir`: fails with `FileExistsError` if the path exists. -/
def FS.mkdir (fs : FS) (p : String) : Except SimError FS :=
  let r := resolvePath fs.cwd p
  if containsStr fs.dirs r || (lookupEntry fs.files r).isSome then
    .error .fileExistsErr
  else .ok { fs with dirs := r :: fs.dirs }

/-- Insert (or overwrite) a binding in a path ↦ data association list. -/
def insertEntry {β : Type} (l : List (String × β)) (r : String) (d : β) :
    List (String × β) :=
  (r, d) :: filterOut (fun e => decide (e.1 = r)) l

/-- Look up a file by (possibly relative) path. -/
def FS.lookupFile (fs : FS) (p : String) : Option FileData :=
  lookupEntry fs.files (resolvePath fs.cwd p)

/-- Write (or overwrite) a file at the resolved path. -/
def FS.writeFile (fs : FS) (p : String) (d : FileData) : FS :=
  { fs with files := insertEntry fs.files (resolvePath fs.cwd p) d }

/-- `shutil.copyfile src dst`: read the source, write the destination. -/
def FS.copyfile (fs : FS) (src dst : String) : Except SimError FS :=
  match fs.lookupFile src with
  | none => .error .fileNotFound
  | some d => .ok (fs.writeFile dst d)

/-! ## The engine input file (`oxpy.InputFile`)

A flat string-to-string mapping; assignment overwrites the existing
binding for the key.  The composed mapping is what `setup_simulation`
serializes to the `input` artifact.
-/

/-- The in-memory input file: a key-value mapping with last-write-wins
assignment. -/
abbrev InputFile := List (String × String)

/-- `input_file[k] = v`: overwrite any existing binding for `k`. -/
def setKey (m : InputFile) (k v : String) : InputFile :=
  insertEntry m k v

/-- Read a key of the composed input file. -/
def getParam (m : InputFile) (k : String) : Option String :=
  lookupEntry m k

/-- The value of the last occurrence of `k` in a parameter list (Python
dicts have unique keys; iteration applies each binding in order, so the
last one wins). -/
def lookupLast (k : String) : List (String × String) → Option String
  | [] => none
  | (a, b) :: t =>
    match lookupLast k t with
    | some v => some v
    | none => if a = k then some b else none

/-- Python truthiness of the optional forces dictionary (line 134
`if force_dict:`): `None` and the empty dict are both falsy. -/
def pyTruthy : Option (List (String × String)) → Bool
  | none => false
  | some l => !l.isEmpty

/-! ## The default parameter mapping (lines 21–47) -/

/-- `default_input_file`: the module-level dictionary of default engine
options.  Note that `setup_simulation` itself never reads it; callers
obtain it through `get_default_input` and pass it as `parameters`. -/
def default_input_file : List (String × String) :=
  [("T", "20C"),
   ("steps", "1e9"),
   ("salt_concentration", "1"),
   ("backend", "CUDA"),
   ("interaction_type", "DNA2"),
   ("print_conf_interval", "1e5"),
   ("print_energy_every", "1e4"),
   ("dt", "0.005"),
   ("sim_type", "MD"),
   ("max_density_multiplier", "10"),
   ("verlet_skin", "0.5"),
   ("time_scale", "linear"),
   ("ensemble", "NVT"),
   ("thermostat", "john"),
   ("diff_coeff", "2.5"),
   ("backend_precision", "mixed"),
   ("refresh_vel", "1"),
   ("restart_step_counter", "1"),
   ("newtonian_steps", "103"),
   ("CUDA_list", "verlet"),
   ("CUDA_sort_every", "0"),
   ("use_edge", "1"),
   ("edge_n_forces", "1"),
   ("no_stdout_energy", "true")]

/-- `get_default_input` (lines 74–78): a deep copy of the defaults; in the
pure model this is the mapping itself. -/
def get_default_input : List (String × String) :=
  default_input_file

/-! ## The input composer `setup_simulation` (lines 87–153)

The function is split at the source's line 107 ("set up input file"): the
guard / delete / recreate preamble (lines 98–106) is in
`setup_simulation`, the rest (lines 107–153) in `setup_build`.  Errors
carry the filesystem state at raise time, successes return the final
filesystem, the composed input mapping and the returned input-file path.
-/

/-- Lines 110–113: copy the topology over if not present
(`if(not exists(out_top)): copyfile(top_path, out_top)`). -/
def copy_if_missing (fs : FS) (src dst : String) : Except (SimError × FS) FS :=
  if fs.existsPath dst then .ok fs
  else
    match fs.copyfile src dst with
    | .error e => .error (e, fs)
    | .ok fs3 => .ok fs3

/-- Lines 116–122: copy the configuration over if not present, and in the
same guarded block also seed the last-configuration file from it. -/
def copy_conf_pair (fs : FS) (src dst lastdst : String) :
    Except (SimError × FS) FS :=
  if fs.existsPath dst then .ok fs
  else
    match fs.copyfile src dst with
    | .error e => .error (e, fs)
    | .ok fs4 =>
      match fs4.copyfile src lastdst with
      | .error e => .error (e, fs4)
      | .ok fs5 => .ok fs5

/-- Lines 107–153 of `setup_simulation`: copy the topology /
configuration files, optionally write the forces file, then build the
input mapping (`input_file = oxpy.InputFile()` starts empty, line 108;
assignments on lines 114, 124, 126–129, 137–139, 142–144, 148) and
serialize it to `join(out_dir, "input")`.  `fs2` is the state just after
`mkdir(out_dir)`. -/
def setup_build (fs2 : FS) (top_path dat_path out_dir : String)
    (parameters : List (String × String))
    (force_dict : Option (List (String × String))) :
    Except (SimError × FS) (FS × InputFile × String) :=
  match copy_if_missing fs2 top_path (pjoin out_dir (basename top_path)) with
  | .error ef => .error ef
  | .ok fs3 =>
    match copy_conf_pair fs3 dat_path (pjoin out_dir (basename dat_path))
        (pjoin out_dir "last_conf.dat") with
    | .error ef => .error ef
    | .ok fs5 =>
      -- lines 131–136: if forces are defined (`if force_dict:` is Python
      -- truthiness) serialize them to forces.json
      let fs6 :=
        if pyTruthy force_dict then
          fs5.writeFile (pjoin out_dir "forces.json")
            (.jsonText (force_dict.getD []))
        else fs5
      -- the input mapping: topology (114), conf_file (124), the output
      -- files (127–129), the force declarations (137–139), the caller
      -- parameters overriding previous entries (143–144, values are
      -- `str(v)`), and finally log_file (148)
      let inp5 :=
        setKey (setKey (setKey (setKey (setKey [] "topology"
          (basename top_path)) "conf_file" (basename dat_path))
          "trajectory_file" "trajectory.dat") "energy_file" "energy.dat")
          "lastconf_file" "last_conf.dat"
      let inp8 :=
        if pyTruthy force_dict then
          setKey (setKey (setKey inp5 "external_forces_as_JSON" "true")
            "external_forces" "1") "external_forces_file" "forces.json"
        else inp5
      let inp9 := parameters.foldl (fun m kv => setKey m kv.1 kv.2) inp8
      let inp10 := setKey inp9 "log_file" "logfile"
      -- lines 150–153: serialize and return
      let input_file_path := pjoin out_dir "input"
      let fs7 := fs6.writeFile input_file_path (.inputText inp10)
      .ok (fs7, inp10, input_file_path)

/-- `setup_simulation` (lines 87–153).  Lines 98–106: fail on an existing
output directory unless `kill_out_dir` is set; with `kill_out_dir`,
pre-emptively remove the directory unless `out_dir` is the literal string
`"./"`; then create the directory and hand off to `setup_build`. -/
def setup_simulation (fs : FS) (top_path dat_path out_dir : String)
    (parameters : List (String × String))
    (force_dict : Option (List (String × String)))
    (kill_out_dir : Bool) :
    Except (SimError × FS) (FS × InputFile × String) :=
  -- lines 98–99
  if fs.existsPath out_dir && !kill_out_dir then
    .error (.directoryConflict, fs)
  else
    -- lines 102–105 (`rmtree` can itself raise; the exception propagates)
    match (if kill_out_dir && (out_dir != "./") then
             (if fs.existsPath out_dir then fs.rmtree out_dir else .ok fs)
           else .ok fs) with
    | .error ef => .error ef
    | .ok fs1 =>
      -- line 106
      match fs1.mkdir out_dir with
      | .error e => .error (e, fs1)
      | .ok fs2 =>
        setup_build fs2 top_path dat_path out_dir parameters force_dict

/-- The mapping `setup_simulation` composes, as a pure function of its
arguments (the same `setKey` chain as `setup_build`, with the filesystem
steps dropped). -/
def composedInput (top_path dat_path : String)
    (parameters : List (String × String))
    (force_dict : Option (List (String × String))) : InputFile :=
  let inp1 := setKey [] "topology" (basename top_path)
  let inp2 := setKey inp1 "conf_file" (basename dat_path)
  let inp3 := setKey inp2 "trajectory_file" "trajectory.dat"
  let inp4 := setKey inp3 "energy_file" "energy.dat"
  let inp5 := setKey inp4 "lastconf_file" "last_conf.dat"
  let inp8 :=
    if pyTruthy force_dict then
      setKey (setKey (setKey inp5 "external_forces_as_JSON" "true")
        "external_forces" "1") "external_forces_file" "forces.json"
    else inp5
  let inp9 := parameters.foldl (fun m kv => setKey m kv.1 kv.2) inp8
  setKey inp9 "log_file" "logfile"

/-- The value the fixed (non-caller) assignments of `setup_build` give to
a key, *before* the caller overlay and the final `log_file` write: the
topology / configuration names, the three output-file names set on lines
127–129, and the three force entries when the forces dictionary is
truthy.  Keys are matched in reverse assignment order (later assignments
shadow earlier ones). -/
def fixedBase (top_path dat_path : String)
    (force_dict : Option (List (String × String))) (k : String) :
    Option String :=
  if k = "external_forces_file" then
    if pyTruthy force_dict then some "forces.json" else none
  else if k = "external_forces" then
    if pyTruthy force_dict then some "1" else none
  else if k = "external_forces_as_JSON" then
    if pyTruthy force_dict then some "true" else none
  else if k = "lastconf_file" then some "last_conf.dat"
  else if k = "energy_file" then some "energy.dat"
  else if k = "trajectory_file" then some "trajectory.dat"
  else if k = "conf_file" then some (basename dat_path)
  else if k = "topology" then some (basename top_path)
  else none

/-! ## The `Simulation` lifecycle handle (lines 167–363) -/

/-- Liveness of the spawned `multiprocessing.Process`. -/
inductive ProcStatus where
  | running
  | terminated
  deriving DecidableEq, Repr

/-- The `Simulation` handle: the process reference `p` (`None` until
`run` is called) and the working directory. -/
structure Simulation where
  p : Option ProcStatus
  out_dir : String
  deriving DecidableEq, Repr

/-- `Simulation.__init__` (lines 168–178): `self.p = None`. -/
def Simulation.attach (out_dir : String) : Simulation :=
  { p := none, out_dir := out_dir }

/-- What a call to `is_alive` (lines 296–303) produces: the method
*prints* the liveness and returns `None`. -/
structure AliveResult where
  /-- The value printed to stdout: `self.p.is_alive()` when a process
  reference exists, `False` otherwise. -/
  printed : Bool
  /-- The method's return value.  There is no `return` statement, so this
  is always `none` (Python `None`). -/
  returned : Option Bool
  deriving DecidableEq, Repr

/-- `Simulation.is_alive` (lines 296–303): prints the liveness, returns
`None`. -/
def Simulation.is_alive (s : Simulation) : AliveResult :=
  match s.p with
  | some st => { printed := st == .running, returned := none }
  | none => { printed := false, returned := none }

/-- `Simulation.run` (lines 305–318): terminate any previous process,
then spawn and start a fresh one (the new process reference replaces the
old one, so the model keeps only the fresh running process). -/
def Simulation.run (s : Simulation) : Simulation :=
  { s with p := some .running }

/-- `Simulation.terminate` (lines 356–362): forcibly terminate the
process if a reference exists; a no-op (not an error) otherwise. -/
def Simulation.terminate (s : Simulation) : Simulation :=
  match s.p with
  | some _ => { s with p := some .terminated }
  | none => s

/-! ## Trajectory access (lines 219–240) -/

/-- The trajectory index the collaborator `describe` returns: `di.idxs`,
one entry per complete frame (entries are abstract frame handles). -/
structure Traj where
  idxs : List Nat
  deriving DecidableEq, Repr

/-- Modelled from the spec: the trajectory read collaborator `get_confs`
(`RyeReader`, not under `src/`) — "`getConfs(descriptor, index, start,
count)` returning configuration objects", failing when the requested
range exceeds the indexed frame count (§4.4, §6). -/
def get_confs (tr : Traj) (start : Int) (count : Nat) : Option (List Nat) :=
  if 0 ≤ start ∧ start.toNat + count ≤ tr.idxs.length then
    some ((tr.idxs.drop start.toNat).take count)
  else none

/-- `Simulation.get_conf_count` (lines 219–226): `len(di.idxs)`. -/
def get_conf_count (tr : Traj) : Nat :=
  tr.idxs.length

/-- Outcome of `Simulation.get_conf`'s own control flow. -/
inductive ConfOutcome where
  /-- The bounds check `id < l` passed and the index was handed to the
  frame reader: `get_confs(ti, di, id, 1)[0]`. -/
  | forwarded (start : Int)
  /-- Line 240: `raise Exception("You requested a conf out of bounds.")`. -/
  | outOfRangeRaised
  deriving DecidableEq, Repr

/-- `Simulation.get_conf` (lines 228–240): `l = len(di.idxs)`; if
`id < l` the index is forwarded to `get_confs`, otherwise the
out-of-bounds exception is raised.  `id` is a Python `int`, so the model
takes `Int`. -/
def get_conf (tr : Traj) (id : Int) : ConfOutcome :=
  let l : Int := (get_conf_count tr : Int)
  if id < l then .forwarded id else .outOfRangeRaised

/-! ## The scoped directory context `PathContext` (lines 52–71) -/

/-- The `PathContext` object: target directory and the recorded previous
directory (`None` until `__enter__` runs, line 56). -/
structure PathContext where
  out_dir : String
  old_path : Option String
  deriving DecidableEq, Repr

/-- `PathContext.__init__` (lines 54–56). -/
def PathContext.init (out_dir : String) : PathContext :=
  { out_dir := out_dir, old_path := none }

/-- `PathContext.__enter__` (lines 58–60): record `getcwd()`, switch the
process-wide current directory to the target.  Returns the updated object
and the new current directory. -/
def PathContext.enter (c : PathContext) (cwd : String) : PathContext × String :=
  ({ c with old_path := some cwd }, c.out_dir)

/-- `PathContext.__exit__` (lines 62–63): `chdir(self.old_path)`; the
current directory it restores (the body's final directory stands only in
the impossible case that `__enter__` never ran). -/
def PathContext.close (c : PathContext) (cwdAfterBody : String) : String :=
  match c.old_path with
  | some old => old
  | none => cwdAfterBody

/-- Executing `with PathContext(out_dir): body` from current directory
`cwd0`.  The body observes the switched current directory, may itself
change it, and either returns normally (`Except.ok`) or raises
(`Except.error`); `__exit__` runs in both cases and the exception
propagates. -/
def runWithPathContext {E A : Type} (out_dir : String)
    (body : String → Except E A × String) (cwd0 : String) :
    Except E A × String :=
  let c := PathContext.init out_dir
  let st1 := c.enter cwd0
  let st2 := body st1.2
  (st2.1, st1.1.close st2.2)

/-! ## Auxiliary definitions for stating and instantiating theorems -/

/-- The four unconditional destination paths `setup_build` writes inside
the output directory (topology copy, configuration copy, last-conf seed,
serialized input file), resolved against the working directory. -/
def buildWritePaths (cwd top_path dat_path out_dir : String) : List String :=
  [resolvePath cwd (pjoin out_dir (basename top_path)),
   resolvePath cwd (pjoin out_dir (basename dat_path)),
   resolvePath cwd (pjoin out_dir "last_conf.dat"),
   resolvePath cwd (pjoin out_dir "input")]

/-- The conditional fifth write: the forces side file. -/
def forcesPath (cwd out_dir : String) : String :=
  resolvePath cwd (pjoin out_dir "forces.json")

/-- Projection of a composer result: the resulting filesystem (on error,
the state at raise time). -/
def okFS (r : Except (SimError × FS) (FS × InputFile × String)) : FS :=
  match r with
  | .ok x => x.1
  | .error e => e.2

/-- Projection of a composer result: the composed input mapping. -/
def okMap (r : Except (SimError × FS) (FS × InputFile × String)) : InputFile :=
  match r with
  | .ok x => x.2.1
  | .error _ => []

/-- Projection of a composer result: the returned input-file path. -/
def okPath (r : Except (SimError × FS) (FS × InputFile × String)) : String :=
  match r with
  | .ok x => x.2.2
  | .error _ => ""

/-- A small concrete filesystem: working directory `/w` holding a
topology `t.top` and an initial configuration `c.dat`. -/
def fsFresh : FS :=
  { cwd := "/w",
    dirs := ["/", "/w"],
    files := [("/w/t.top", .bytes "topdata"), ("/w/c.dat", .bytes "confdata")] }

/-- Like `fsFresh`, but the output directory `/w/out` already exists and
already holds a copy of the topology (a partially built composition). -/
def fsPartial : FS :=
  { cwd := "/w",
    dirs := ["/", "/w", "/w/out"],
    files := [("/w/t.top", .bytes "topdata"),
              ("/w/c.dat", .bytes "confdata"),
              ("/w/out/t.top", .bytes "topdata")] }

/-- Sources in `/src`; the working directory `/w` holds an unrelated
pre-existing file `old.txt`.  Used to exercise `out_dir = "."`. -/
def fsDot : FS :=
  { cwd := "/w",
    dirs := ["/", "/w", "/src"],
    files := [("/src/t.top", .bytes "topdata"),
              ("/src/c.dat", .bytes "confdata"),
              ("/w/old.txt", .bytes "precious")] }

/-- Sources in `/w`; the output directory `/w/out` exists and holds a
stale file, to exercise the delete-and-recreate policy. -/
def fsStale : FS :=
  { cwd := "/w",
    dirs := ["/", "/w", "/w/out"],
    files := [("/w/t.top", .bytes "topdata"),
              ("/w/c.dat", .bytes "confdata"),
              ("/w/out/stale.txt", .bytes "junk")] }

/-! ## Association-list and path lemmas -/

theorem lookupEntry_filterOut {β : Type} (pr : String → Bool) :
    ∀ (l : List (String × β)) (q : String),
      lookupEntry (filterOut (fun e => pr e.1) l) q =
        if pr q then none else lookupEntry l q := by
  intro l
  induction l with
  | nil => intro q; simp [lookupEntry, filterOut]
  | cons e t ih =>
    intro q
    by_cases hq : q = e.1
    · by_cases hp : pr e.1 = true
      · have hpq : pr q = true := by rw [hq]; exact hp
        simp [filterOut, hp, hpq, ih]
      · have hp2 : pr e.1 = false := by
          cases hv : pr e.1
          · rfl
          · exact absurd hv hp
        have hpq : pr q = false := by rw [hq]; exact hp2
        simp [filterOut, hp2, hpq, lookupEntry, hq]
    · by_cases hp : pr e.1 = true
      · simp [filterOut, hp, ih, lookupEntry, hq]
      · have hp2 : pr e.1 = false := by
          cases hv : pr e.1
          · rfl
          · exact absurd hv hp
        simp [filterOut, hp2, lookupEntry, hq, ih]

theorem lookupEntry_insertEntry {β : Type} (l : List (String × β)) (r : String)
    (d : β) (q : String) :
    lookupEntry (insertEntry l r d) q = if q = r then some d else lookupEntry l q := by
  by_cases hq : q = r
  · simp [insertEntry, lookupEntry, hq]
  · have h2 := lookupEntry_filterOut (fun s => decide (s = r)) l q
    simp only [decide_eq_true_eq] at h2
    rw [if_neg hq] at h2
    simp [insertEntry, lookupEntry, hq, h2]

theorem containsStr_filterOut (pr : String → Bool) :
    ∀ (l : List String) (q : String),
      containsStr (filterOut pr l) q =
        if pr q then false else containsStr l q := by
  intro l
  induction l with
  | nil => intro q; simp [containsStr, filterOut]
  | cons a t ih =>
    intro q
    by_cases hq : q = a
    · by_cases hp : pr a = true
      · have hpq : pr q = true := by rw [hq]; exact hp
        simp [filterOut, hp, hpq, ih]
      · have hp2 : pr a = false := by
          cases hv : pr a
          · rfl
          · exact absurd hv hp
        have hpq : pr q = false := by rw [hq]; exact hp2
        simp [filterOut, hp2, hpq, containsStr, hq]
    · by_cases hp : pr a = true
      · simp [filterOut, hp, ih, containsStr, hq]
      · have hp2 : pr a = false := by
          cases hv : pr a
          · rfl
          · exact absurd hv hp
        simp [filterOut, hp2, containsStr, hq, ih]

theorem isPrefixOf_length_le {α : Type} [BEq α] :
    ∀ (a b : List α), a.isPrefixOf b = true → a.length ≤ b.length := by
  intro a
  induction a with
  | nil => intro b _; simp
  | cons x xs ih =>
    intro b h
    cases b with
    | nil => simp [List.isPrefixOf] at h
    | cons y ys =>
      simp only [List.isPrefixOf, Bool.and_eq_true] at h
      have := ih ys h.2
      simp only [List.length_cons]
      omega

theorem pathUnder_self_false (d : String) : pathUnder d d = false := by
  cases hv : pathUnder d d
  · rfl
  · have := isPrefixOf_length_le (d.data ++ ['/']) d.data hv
    simp at this

theorem pathUnder_ne_self (d q : String) (h : pathUnder d q = true) : q ≠ d := by
  intro he
  rw [he] at h
  rw [pathUnder_self_false d] at h
  cases h

/-! ## Small facts about the filesystem operations -/

theorem writeFile_cwd (fs : FS) (p : String) (d : FileData) :
    (fs.writeFile p d).cwd = fs.cwd := rfl

theorem writeFile_dirs (fs : FS) (p : String) (d : FileData) :
    (fs.writeFile p d).dirs = fs.dirs := rfl

theorem lookup_writeFile (fs : FS) (p : String) (d : FileData) (q : String) :
    lookupEntry (fs.writeFile p d).files q =
      if q = resolvePath fs.cwd p then some d else lookupEntry fs.files q := by
  simp [FS.writeFile, lookupEntry_insertEntry]

theorem rmtree_ok (fs fs1 : FS) (p : String) (h : fs.rmtree p = .ok fs1) :
    lastComponentIsDot p = false ∧
    fs1 = { fs with
      dirs := filterOut (fun q => underOrEq (resolvePath fs.cwd p) q) fs.dirs,
      files := filterOut (fun e => underOrEq (resolvePath fs.cwd p) e.1)
        fs.files } := by
  rw [FS.rmtree] at h
  by_cases hdot : lastComponentIsDot p = true
  · rw [if_pos hdot] at h
    cases h
  · have hd2 : lastComponentIsDot p = false := by
      cases hv : lastComponentIsDot p
      · rfl
      · exact absurd hv hdot
    rw [if_neg hdot] at h
    injection h with h1
    exact ⟨hd2, h1.symm⟩

theorem rmtree_dot_error (fs : FS) (p : String)
    (hdot : lastComponentIsDot p = true) :
    fs.rmtree p = .error (.osErrorInvalid,
      { fs with
        dirs := filterOut (fun q => pathUnder (resolvePath fs.cwd p) q)
          fs.dirs,
        files := filterOut (fun e => pathUnder (resolvePath fs.cwd p) e.1)
          fs.files }) := by
  rw [FS.rmtree, if_pos hdot]

theorem mkdir_ok (fs fs2 : FS) (p : String) (h : fs.mkdir p = .ok fs2) :
    fs.existsPath p = false ∧
      fs2 = { fs with dirs := resolvePath fs.cwd p :: fs.dirs } := by
  rw [FS.mkdir] at h
  by_cases hc : (containsStr fs.dirs (resolvePath fs.cwd p)
      || (lookupEntry fs.files (resolvePath fs.cwd p)).isSome) = true
  · simp only [hc, if_true] at h
    cases h
  · have hc2 : (containsStr fs.dirs (resolvePath fs.cwd p)
      || (lookupEntry fs.files (resolvePath fs.cwd p)).isSome) = false := by
      cases hv : (containsStr fs.dirs (resolvePath fs.cwd p)
        || (lookupEntry fs.files (resolvePath fs.cwd p)).isSome)
      · rfl
      · exact absurd hv hc
    simp only [hc2, Bool.false_eq_true, if_false, Except.ok.injEq] at h
    exact ⟨by simp [FS.existsPath, hc2], h.symm⟩

theorem mkdir_exists_error (fs : FS) (p : String)
    (h : fs.existsPath p = true) : fs.mkdir p = .error .fileExistsErr := by
  rw [FS.mkdir]
  simp only [FS.existsPath] at h
  simp [h]

/-! ## The composed input mapping -/

theorem getParam_setKey (m : InputFile) (k v q : String) :
    getParam (setKey m k v) q = if q = k then some v else getParam m q := by
  simp [getParam, setKey, lookupEntry_insertEntry]

theorem getParam_foldl (ps : List (String × String)) :
    ∀ (m : InputFile) (k : String),
      getParam (ps.foldl (fun m kv => setKey m kv.1 kv.2) m) k =
        match lookupLast k ps with
        | some v => some v
        | none => getParam m k := by
  induction ps with
  | nil => intro m k; simp [lookupLast]
  | cons e t ih =>
    intro m k
    rw [List.foldl_cons, ih]
    cases h : lookupLast k t with
    | some v => simp [lookupLast, h]
    | none =>
      simp only [lookupLast, h]
      rw [getParam_setKey]
      by_cases hk : e.1 = k
      · rw [if_pos hk, if_pos hk.symm]
      · rw [if_neg hk, if_neg (fun he => hk he.symm)]

theorem getParam_composedInput (t d : String) (ps : List (String × String))
    (f : Option (List (String × String))) (k : String) :
    getParam (composedInput t d ps f) k =
      if k = "log_file" then some "logfile"
      else
        match lookupLast k ps with
        | some v => some v
        | none => fixedBase t d f k := by
  rw [composedInput]
  rw [getParam_setKey]
  by_cases hk : k = "log_file"
  · rw [if_pos hk, if_pos hk]
  · rw [if_neg hk, if_neg hk, getParam_foldl]
    cases h : lookupLast k ps with
    | some v => rfl
    | none =>
      simp only []
      by_cases hf : pyTruthy f = true
      · simp only [hf, if_true]
        rw [getParam_setKey, getParam_setKey, getParam_setKey, getParam_setKey,
          getParam_setKey, getParam_setKey, getParam_setKey, getParam_setKey]
        rw [fixedBase]
        simp only [hf, if_true]
        by_cases h1 : k = "external_forces_file"
        · rw [if_pos h1, if_pos h1]
        · rw [if_neg h1, if_neg h1]
          by_cases h2 : k = "external_forces"
          · rw [if_pos h2, if_pos h2]
          · rw [if_neg h2, if_neg h2]
            by_cases h3 : k = "external_forces_as_JSON"
            · rw [if_pos h3, if_pos h3]
            · rw [if_neg h3, if_neg h3]
              by_cases h4 : k = "lastconf_file"
              · rw [if_pos h4, if_pos h4]
              · rw [if_neg h4, if_neg h4]
                by_cases h5 : k = "energy_file"
                · rw [if_pos h5, if_pos h5]
                · rw [if_neg h5, if_neg h5]
                  by_cases h6 : k = "trajectory_file"
                  · rw [if_pos h6, if_pos h6]
                  · rw [if_neg h6, if_neg h6]
                    by_cases h7 : k = "conf_file"
                    · rw [if_pos h7, if_pos h7]
                    · rw [if_neg h7, if_neg h7]
                      by_cases h8 : k = "topology"
                      · rw [if_pos h8, if_pos h8]
                      · rw [if_neg h8, if_neg h8]
                        simp [getParam, lookupEntry]
      · have hf2 : pyTruthy f = false := by
          cases hv : pyTruthy f
          · rfl
          · exact absurd hv hf
        simp only [hf2, Bool.false_eq_true, if_false]
        rw [getParam_setKey, getParam_setKey, getParam_setKey, getParam_setKey,
          getParam_setKey]
        rw [fixedBase]
        simp only [hf2, Bool.false_eq_true, if_false]
        by_cases h1 : k = "external_forces_file"
        · rw [if_pos h1]
          rw [if_neg (by rw [h1]; decide), if_neg (by rw [h1]; decide),
            if_neg (by rw [h1]; decide), if_neg (by rw [h1]; decide),
            if_neg (by rw [h1]; decide)]
          simp [getParam, lookupEntry]
        · rw [if_neg h1]
          by_cases h2 : k = "external_forces"
          · rw [if_pos h2]
            rw [if_neg (by rw [h2]; decide), if_neg (by rw [h2]; decide),
              if_neg (by rw [h2]; decide), if_neg (by rw [h2]; decide),
              if_neg (by rw [h2]; decide)]
            simp [getParam, lookupEntry]
          · rw [if_neg h2]
            by_cases h3 : k = "external_forces_as_JSON"
            · rw [if_pos h3]
              rw [if_neg (by rw [h3]; decide), if_neg (by rw [h3]; decide),
                if_neg (by rw [h3]; decide), if_neg (by rw [h3]; decide),
                if_neg (by rw [h3]; decide)]
              simp [getParam, lookupEntry]
            · rw [if_neg h3]
              by_cases h4 : k = "lastconf_file"
              · rw [if_pos h4, if_pos h4]
              · rw [if_neg h4, if_neg h4]
                by_cases h5 : k = "energy_file"
                · rw [if_pos h5, if_pos h5]
                · rw [if_neg h5, if_neg h5]
                  by_cases h6 : k = "trajectory_file"
                  · rw [if_pos h6, if_pos h6]
                  · rw [if_neg h6, if_neg h6]
                    by_cases h7 : k = "conf_file"
                    · rw [if_pos h7, if_pos h7]
                    · rw [if_neg h7, if_neg h7]
                      by_cases h8 : k = "topology"
                      · rw [if_pos h8, if_pos h8]
                      · rw [if_neg h8, if_neg h8]
                        simp [getParam, lookupEntry]

/-! ## Tracing `setup_build` and `setup_simulation` -/

theorem setup_build_ok_input (fs2 fsr : FS) (t d o : String)
    (ps : List (String × String)) (f : Option (List (String × String)))
    (m : InputFile) (p : String)
    (h : setup_build fs2 t d o ps f = .ok (fsr, m, p)) :
    m = composedInput t d ps f ∧ p = pjoin o "input" := by
  rw [setup_build] at h
  cases hA : copy_if_missing fs2 t (pjoin o (basename t)) with
  | error ef => rw [hA] at h; cases h
  | ok fs3 =>
    rw [hA] at h
    dsimp only at h
    cases hB : copy_conf_pair fs3 d (pjoin o (basename d))
        (pjoin o "last_conf.dat") with
    | error ef => rw [hB] at h; cases h
    | ok fs5 =>
      rw [hB] at h
      dsimp only at h
      simp only [Except.ok.injEq, Prod.mk.injEq] at h
      refine ⟨?_, h.2.2.symm⟩
      rw [composedInput]
      exact h.2.1.symm

theorem setup_simulation_ok_decompose (fs fsr : FS) (t d o : String)
    (ps : List (String × String)) (f : Option (List (String × String)))
    (k : Bool) (m : InputFile) (p : String)
    (h : setup_simulation fs t d o ps f k = .ok (fsr, m, p)) :
    ∃ fs1 fs2,
      (if (k && (o != "./")) = true then
          (if fs.existsPath o = true then fs.rmtree o else Except.ok fs)
        else Except.ok fs) = .ok fs1 ∧
      fs1.mkdir o = .ok fs2 ∧
      setup_build fs2 t d o ps f = .ok (fsr, m, p) := by
  rw [setup_simulation] at h
  by_cases hc : (fs.existsPath o && !k) = true
  · rw [if_pos hc] at h
    cases h
  · rw [if_neg hc] at h
    cases hpre : (if (k && (o != "./")) = true then
        (if fs.existsPath o = true then fs.rmtree o else Except.ok fs)
      else Except.ok fs) with
    | error ef => rw [hpre] at h; cases h
    | ok fs1 =>
      rw [hpre] at h
      dsimp only at h
      cases hm : fs1.mkdir o with
      | error e => rw [hm] at h; cases h
      | ok fs2 =>
        rw [hm] at h
        exact ⟨fs1, fs2, rfl, hm, h⟩

theorem setup_simulation_ok_input (fs fsr : FS) (t d o : String)
    (ps : List (String × String)) (f : Option (List (String × String)))
    (k : Bool) (m : InputFile) (p : String)
    (h : setup_simulation fs t d o ps f k = .ok (fsr, m, p)) :
    m = composedInput t d ps f ∧ p = pjoin o "input" := by
  obtain ⟨fs1, fs2, _, _, hb⟩ :=
    setup_simulation_ok_decompose fs fsr t d o ps f k m p h
  exact setup_build_ok_input _ _ _ _ _ _ _ _ _ hb

theorem copy_if_missing_ok (fs fs3 : FS) (src dst : String)
    (h : copy_if_missing fs src dst = .ok fs3) :
    (fs.existsPath dst = true ∧ fs3 = fs) ∨
      (fs.existsPath dst = false ∧
        ∃ dd, fs.lookupFile src = some dd ∧ fs3 = fs.writeFile dst dd) := by
  rw [copy_if_missing] at h
  by_cases hc : fs.existsPath dst = true
  · rw [if_pos hc] at h
    cases h
    exact Or.inl ⟨hc, rfl⟩
  · rw [if_neg hc] at h
    have hc2 : fs.existsPath dst = false := by
      cases hv : fs.existsPath dst
      · rfl
      · exact absurd hv hc
    rw [FS.copyfile] at h
    cases hl : fs.lookupFile src with
    | none => rw [hl] at h; cases h
    | some dd =>
      rw [hl] at h
      cases h
      exact Or.inr ⟨hc2, dd, rfl, rfl⟩

theorem copy_conf_pair_ok (fs fs5 : FS) (src dst lastdst : String)
    (h : copy_conf_pair fs src dst lastdst = .ok fs5) :
    (fs.existsPath dst = true ∧ fs5 = fs) ∨
      (fs.existsPath dst = false ∧
        ∃ dd, fs.lookupFile src = some dd ∧
          fs5 = (fs.writeFile dst dd).writeFile lastdst dd) := by
  rw [copy_conf_pair] at h
  by_cases hc : fs.existsPath dst = true
  · rw [if_pos hc] at h
    cases h
    exact Or.inl ⟨hc, rfl⟩
  · rw [if_neg hc] at h
    have hc2 : fs.existsPath dst = false := by
      cases hv : fs.existsPath dst
      · rfl
      · exact absurd hv hc
    rw [FS.copyfile] at h
    cases hl : fs.lookupFile src with
    | none => rw [hl] at h; cases h
    | some dd =>
      rw [hl] at h
      dsimp only at h
      rw [FS.copyfile] at h
      have hl2 : (fs.writeFile dst dd).lookupFile src = some dd := by
        rw [FS.lookupFile]
        simp only [writeFile_cwd]
        rw [lookup_writeFile]
        by_cases he : resolvePath fs.cwd src = resolvePath fs.cwd dst
        · rw [if_pos he]
        · rw [if_neg he]
          rw [FS.lookupFile] at hl
          exact hl
      rw [hl2] at h
      cases h
      exact Or.inr ⟨hc2, dd, rfl, rfl⟩

theorem setup_build_effect (fs2 fsr : FS) (t d o : String)
    (ps : List (String × String)) (f : Option (List (String × String)))
    (m : InputFile) (p : String)
    (h : setup_build fs2 t d o ps f = .ok (fsr, m, p)) :
    fsr.cwd = fs2.cwd ∧ fsr.dirs = fs2.dirs ∧
      ∀ q, q ≠ resolvePath fs2.cwd (pjoin o (basename t)) →
        q ≠ resolvePath fs2.cwd (pjoin o (basename d)) →
        q ≠ resolvePath fs2.cwd (pjoin o "last_conf.dat") →
        (pyTruthy f = true → q ≠ resolvePath fs2.cwd (pjoin o "forces.json")) →
        q ≠ resolvePath fs2.cwd (pjoin o "input") →
        lookupEntry fsr.files q = lookupEntry fs2.files q := by
  rw [setup_build] at h
  cases hA : copy_if_missing fs2 t (pjoin o (basename t)) with
  | error ef => rw [hA] at h; cases h
  | ok fs3 =>
    rw [hA] at h
    dsimp only at h
    cases hB : copy_conf_pair fs3 d (pjoin o (basename d))
        (pjoin o "last_conf.dat") with
    | error ef => rw [hB] at h; cases h
    | ok fs5 =>
      rw [hB] at h
      dsimp only at h
      simp only [Except.ok.injEq, Prod.mk.injEq] at h
      have hfsr := h.1
      -- facts about the first copy step
      have step3 : fs3.cwd = fs2.cwd ∧ fs3.dirs = fs2.dirs ∧
          ∀ q, q ≠ resolvePath fs2.cwd (pjoin o (basename t)) →
            lookupEntry fs3.files q = lookupEntry fs2.files q := by
        rcases copy_if_missing_ok fs2 fs3 t _ hA with ⟨_, h3⟩ | ⟨_, dd, _, h3⟩
        · subst h3; exact ⟨rfl, rfl, fun q _ => rfl⟩
        · subst h3
          refine ⟨rfl, rfl, fun q hq => ?_⟩
          rw [lookup_writeFile, if_neg hq]
      -- facts about the second copy step
      have step5 : fs5.cwd = fs2.cwd ∧ fs5.dirs = fs2.dirs ∧
          ∀ q, q ≠ resolvePath fs2.cwd (pjoin o (basename t)) →
            q ≠ resolvePath fs2.cwd (pjoin o (basename d)) →
            q ≠ resolvePath fs2.cwd (pjoin o "last_conf.dat") →
            lookupEntry fs5.files q = lookupEntry fs2.files q := by
        rcases copy_conf_pair_ok fs3 fs5 d _ _ hB with ⟨_, h5⟩ | ⟨_, dd, _, h5⟩
        · subst h5
          exact ⟨step3.1, step3.2.1,
            fun q hq1 _ _ => step3.2.2 q hq1⟩
        · subst h5
          refine ⟨step3.1, step3.2.1, fun q hq1 hq2 hq3 => ?_⟩
          rw [lookup_writeFile, writeFile_cwd, step3.1, if_neg hq3,
            lookup_writeFile, step3.1, if_neg hq2]
          exact step3.2.2 q hq1
      -- the optional forces write and the final input write
      subst hfsr
      refine ⟨?_, ?_, ?_⟩
      · rw [writeFile_cwd]
        by_cases hf : pyTruthy f = true
        · rw [if_pos hf, writeFile_cwd]; exact step5.1
        · rw [if_neg hf]; exact step5.1
      · rw [writeFile_dirs]
        by_cases hf : pyTruthy f = true
        · rw [if_pos hf, writeFile_dirs]; exact step5.2.1
        · rw [if_neg hf]; exact step5.2.1
      · intro q hq1 hq2 hq3 hq4 hq5
        by_cases hf : pyTruthy f = true
        · rw [if_pos hf]
          rw [lookup_writeFile, writeFile_cwd, step5.1, if_neg hq5,
            lookup_writeFile, step5.1, if_neg (hq4 hf)]
          exact step5.2.2 q hq1 hq2 hq3
        · rw [if_neg hf]
          rw [lookup_writeFile, step5.1, if_neg hq5]
          exact step5.2.2 q hq1 hq2 hq3

theorem setup_build_copies (fs2 fsr : FS) (t d o : String)
    (ps : List (String × String)) (f : Option (List (String × String)))
    (m : InputFile) (p : String)
    (h : setup_build fs2 t d o ps f = .ok (fsr, m, p))
    (hnt : fs2.existsPath (pjoin o (basename t)) = false)
    (hnd : fs2.existsPath (pjoin o (basename d)) = false)
    (htd : resolvePath fs2.cwd (pjoin o (basename d)) ≠
      resolvePath fs2.cwd (pjoin o (basename t)))
    (hsrc : resolvePath fs2.cwd d ≠
      resolvePath fs2.cwd (pjoin o (basename t)))
    (htl : resolvePath fs2.cwd (pjoin o (basename t)) ≠
      resolvePath fs2.cwd (pjoin o "last_conf.dat"))
    (hti : resolvePath fs2.cwd (pjoin o (basename t)) ≠
      resolvePath fs2.cwd (pjoin o "input"))
    (hdi : resolvePath fs2.cwd (pjoin o (basename d)) ≠
      resolvePath fs2.cwd (pjoin o "input"))
    (hli : resolvePath fs2.cwd (pjoin o "last_conf.dat") ≠
      resolvePath fs2.cwd (pjoin o "input"))
    (htf : pyTruthy f = true → resolvePath fs2.cwd (pjoin o (basename t)) ≠
      resolvePath fs2.cwd (pjoin o "forces.json"))
    (hdf : pyTruthy f = true → resolvePath fs2.cwd (pjoin o (basename d)) ≠
      resolvePath fs2.cwd (pjoin o "forces.json"))
    (hlf : pyTruthy f = true → resolvePath fs2.cwd (pjoin o "last_conf.dat") ≠
      resolvePath fs2.cwd (pjoin o "forces.json")) :
    ∃ tD dD, fs2.lookupFile t = some tD ∧ fs2.lookupFile d = some dD ∧
      lookupEntry fsr.files (resolvePath fs2.cwd (pjoin o (basename t))) =
        some tD ∧
      lookupEntry fsr.files (resolvePath fs2.cwd (pjoin o (basename d))) =
        some dD ∧
      lookupEntry fsr.files (resolvePath fs2.cwd (pjoin o "last_conf.dat")) =
        some dD := by
  rw [setup_build] at h
  cases hA : copy_if_missing fs2 t (pjoin o (basename t)) with
  | error ef => rw [hA] at h; cases h
  | ok fs3 =>
    rw [hA] at h
    dsimp only at h
    rcases copy_if_missing_ok fs2 fs3 t _ hA with ⟨hex, _⟩ | ⟨_, tD, htD, h3⟩
    · rw [hex] at hnt; cases hnt
    · subst h3
      cases hB : copy_conf_pair (fs2.writeFile (pjoin o (basename t)) tD) d
          (pjoin o (basename d)) (pjoin o "last_conf.dat") with
      | error ef => rw [hB] at h; cases h
      | ok fs5 =>
        rw [hB] at h
        dsimp only at h
        have hnd3 : (fs2.writeFile (pjoin o (basename t)) tD).existsPath
            (pjoin o (basename d)) = false := by
          rw [FS.existsPath] at hnd ⊢
          rw [writeFile_cwd, writeFile_dirs, lookup_writeFile, if_neg htd]
          exact hnd
        rcases copy_conf_pair_ok _ fs5 d _ _ hB with ⟨hex, _⟩ | ⟨_, dD, hdD, h5⟩
        · rw [hex] at hnd3; cases hnd3
        · subst h5
          have hdD2 : fs2.lookupFile d = some dD := by
            rw [FS.lookupFile] at hdD ⊢
            rw [writeFile_cwd, lookup_writeFile, if_neg hsrc] at hdD
            exact hdD
          simp only [Except.ok.injEq, Prod.mk.injEq] at h
          have hfsr := h.1
          subst hfsr
          refine ⟨tD, dD, htD, hdD2, ?_, ?_, ?_⟩
          · by_cases hf : pyTruthy f = true
            · rw [if_pos hf]
              simp only [lookup_writeFile, writeFile_cwd]
              rw [if_neg hti, if_neg (htf hf), if_neg htl,
                if_neg (fun he => htd he.symm)]
              simp
            · rw [if_neg hf]
              simp only [lookup_writeFile, writeFile_cwd]
              rw [if_neg hti, if_neg htl]
              rw [if_neg (fun he => htd he.symm)]
              simp
          · by_cases hf : pyTruthy f = true
            · rw [if_pos hf]
              simp only [lookup_writeFile, writeFile_cwd]
              rw [if_neg hdi, if_neg (hdf hf)]
              by_cases hdl : resolvePath fs2.cwd (pjoin o (basename d)) =
                  resolvePath fs2.cwd (pjoin o "last_conf.dat")
              · rw [if_pos hdl]
              · rw [if_neg hdl]
                simp
            · rw [if_neg hf]
              simp only [lookup_writeFile, writeFile_cwd]
              rw [if_neg hdi]
              by_cases hdl : resolvePath fs2.cwd (pjoin o (basename d)) =
                  resolvePath fs2.cwd (pjoin o "last_conf.dat")
              · rw [if_pos hdl]
              · rw [if_neg hdl]
                simp
          · by_cases hf : pyTruthy f = true
            · rw [if_pos hf]
              simp only [lookup_writeFile, writeFile_cwd]
              rw [if_neg hli, if_neg (hlf hf)]
              simp
            · rw [if_neg hf]
              simp only [lookup_writeFile, writeFile_cwd]
              rw [if_neg hli]
              simp

end OxdnaBoilerplate

namespace OxdnaBoilerplate

/-! ## Claim theorems -/

/-- C4: when the output directory already exists and `kill_out_dir` is
false, `setup_simulation` fails with the directory-conflict error and
performs no filesystem mutation: the state carried by the error is the
caller's filesystem, unchanged (no directory created or deleted, no file
copied or written). -/
theorem setup_conflict_no_mutation (fs : FS) (t d o : String)
    (ps : List (String × String)) (f : Option (List (String × String)))
    (he : fs.existsPath o = true) :
    setup_simulation fs t d o ps f false = .error (.directoryConflict, fs) := by
  rw [setup_simulation]
  have hc : (fs.existsPath o && !false) = true := by rw [he]; rfl
  rw [if_pos hc]

/-- Witness for C4 at a concrete partially-built directory. -/
theorem setup_conflict_no_mutation_witness :
    fsPartial.existsPath "out" = true ∧
      setup_simulation fsPartial "t.top" "c.dat" "out" [] none false =
        .error (.directoryConflict, fsPartial) :=
  ⟨by decide,
    setup_conflict_no_mutation fsPartial "t.top" "c.dat" "out" [] none
      (by decide)⟩

/-- C6 (code bug): `Simulation.is_alive` *prints* the liveness value and
returns `None` in every state — it never returns a boolean, contradicting
its own docstring "returns true if the simulation is still running".  The
printed value is `True` right after `run`, `False` after `terminate`, and
`False` (without raising) on a handle that was never started. -/
theorem is_alive_prints_but_returns_none (out_dir : String) :
    (Simulation.attach out_dir).is_alive =
      { printed := false, returned := none } ∧
    (Simulation.attach out_dir).run.is_alive =
      { printed := true, returned := none } ∧
    (Simulation.attach out_dir).run.terminate.is_alive =
      { printed := false, returned := none } ∧
    ∀ s : Simulation, s.is_alive.returned = none := by
  refine ⟨rfl, rfl, rfl, ?_⟩
  intro s
  cases hs : s.p with
  | none => rw [Simulation.is_alive, hs]
  | some st => rw [Simulation.is_alive, hs]

/-- C7: `Simulation.get_conf` raises the out-of-bounds exception exactly
when the index is at least the frame count `get_conf_count`; in
particular it raises at the count itself, and at count minus one (for a
positive count) it succeeds and the frame reader returns a configuration
view. -/
theorem get_conf_out_of_range_iff (tr : Traj) (id : Int) :
    (get_conf tr id = .outOfRangeRaised ↔ (get_conf_count tr : Int) ≤ id) ∧
    get_conf tr (get_conf_count tr : Int) = .outOfRangeRaised ∧
    (0 < get_conf_count tr →
      get_conf tr ((get_conf_count tr : Int) - 1) =
        .forwarded ((get_conf_count tr : Int) - 1) ∧
      (get_confs tr ((get_conf_count tr : Int) - 1) 1).isSome = true) := by
  refine ⟨?_, ?_, ?_⟩
  · rw [get_conf]
    by_cases hlt : id < (get_conf_count tr : Int)
    · rw [if_pos hlt]
      constructor
      · intro hcon; cases hcon
      · intro hle; omega
    · rw [if_neg hlt]
      constructor
      · intro _; omega
      · intro _; rfl
  · rw [get_conf]
    exact if_neg (lt_irrefl _)
  · intro hpos
    have hp : 0 < tr.idxs.length := hpos
    constructor
    · rw [get_conf]
      exact if_pos (by simp only [get_conf_count]; omega)
    · have hc : 0 ≤ (get_conf_count tr : Int) - 1 ∧
          ((get_conf_count tr : Int) - 1).toNat + 1 ≤ tr.idxs.length := by
        simp only [get_conf_count]
        constructor <;> omega
      rw [get_confs]
      rw [if_pos hc]
      rfl

/-- Witness for C7 on a two-frame trajectory. -/
theorem get_conf_out_of_range_iff_witness :
    get_conf (Traj.mk [5, 7]) (get_conf_count (Traj.mk [5, 7]) : Int) =
      .outOfRangeRaised ∧
    get_conf (Traj.mk [5, 7]) ((get_conf_count (Traj.mk [5, 7]) : Int) - 1) =
      .forwarded ((get_conf_count (Traj.mk [5, 7]) : Int) - 1) ∧
    (get_confs (Traj.mk [5, 7])
      ((get_conf_count (Traj.mk [5, 7]) : Int) - 1) 1).isSome = true := by
  have h := get_conf_out_of_range_iff (Traj.mk [5, 7]) 0
  exact ⟨h.2.1, (h.2.2 (by decide)).1, (h.2.2 (by decide)).2⟩

/-- C10: `Simulation.get_conf` does not reject negative indices: every
negative index passes the `id < l` bounds check (frame counts are
non-negative), so the exception branch is not taken and the negative
index is forwarded verbatim to the frame reader `get_confs`. -/
theorem get_conf_negative_forwarded (tr : Traj) (id : Int) (h : id < 0) :
    id < (get_conf_count tr : Int) ∧ get_conf tr id = .forwarded id := by
  have hlt : id < (get_conf_count tr : Int) := by
    have : (0 : Int) ≤ (get_conf_count tr : Int) := Int.ofNat_nonneg _
    omega
  refine ⟨hlt, ?_⟩
  rw [get_conf]
  rw [if_pos hlt]

/-- Witness for C10 at index `-1` on an empty trajectory. -/
theorem get_conf_negative_forwarded_witness :
    (-1 : Int) < 0 ∧
      ((-1 : Int) < (get_conf_count (Traj.mk []) : Int) ∧
        get_conf (Traj.mk []) (-1) = .forwarded (-1)) :=
  ⟨by decide, get_conf_negative_forwarded (Traj.mk []) (-1) (by decide)⟩

/-- C8: running a body inside `PathContext` records the caller's current
directory, executes the body with the process-wide current directory
switched to the target, and — whether the body returns normally or
raises — restores the recorded prior directory on exit while propagating
the body's outcome. -/
theorem pathContext_switch_and_restore {E A : Type} (out_dir cwd0 : String)
    (body : String → Except E A × String) :
    (runWithPathContext out_dir body cwd0).2 = cwd0 ∧
    (runWithPathContext out_dir body cwd0).1 = (body out_dir).1 :=
  ⟨rfl, rfl⟩

end OxdnaBoilerplate

namespace OxdnaBoilerplate

/-- C1 counterexample: `setup_simulation` never merges
`default_input_file`.  With `parameters = {"log_file": "mylog"}`, the
call succeeds, yet the default key `"T"` (default value `"20C"`) is
absent from the composed input file, and the caller's value for
`"log_file"` is overridden by `"logfile"` rather than winning — refuting
both halves of the claim at a concrete input. -/
theorem setup_defaults_not_merged_cex :
    lookupEntry default_input_file "T" = some "20C" ∧
    lookupLast "T" [("log_file", "mylog")] = none ∧
    (setup_simulation fsFresh "t.top" "c.dat" "out" [("log_file", "mylog")]
        none false).toOption.map
      (fun r => (getParam r.2.1 "T", getParam r.2.1 "log_file")) =
      some (none, some "logfile") :=
  ⟨rfl, rfl, rfl⟩

/-- C1 (amended): the composed mapping is the fixed entries (topology,
conf_file, the three output-file names, and the force declarations when
the forces dictionary is truthy) overlaid by the caller's `parameters`
(string-valued, last write wins), with `log_file` forced to `"logfile"`
after the overlay.  The documented defaults are *not* merged: a key that
is not in `parameters` and not among the fixed entries is absent from the
composed file, and a caller value wins for every key except
`"log_file"`. -/
theorem setup_params_overlay (fs fsr : FS) (t d o : String)
    (ps : List (String × String)) (f : Option (List (String × String)))
    (k : Bool) (m : InputFile) (p : String)
    (h : setup_simulation fs t d o ps f k = .ok (fsr, m, p)) :
    (∀ key v, key ≠ "log_file" → lookupLast key ps = some v →
      getParam m key = some v) ∧
    getParam m "log_file" = some "logfile" ∧
    (∀ key, key ≠ "log_file" → lookupLast key ps = none →
      fixedBase t d f key = none → getParam m key = none) := by
  obtain ⟨hm, -⟩ := setup_simulation_ok_input fs fsr t d o ps f k m p h
  subst hm
  refine ⟨?_, ?_, ?_⟩
  · intro key v hk hv
    rw [getParam_composedInput, if_neg hk, hv]
  · rw [getParam_composedInput]
    rw [if_pos rfl]
  · intro key hk hnone hfb
    rw [getParam_composedInput, if_neg hk, hnone]
    exact hfb

/-- Witness for C1 (amended) on a concrete composition. -/
theorem setup_params_overlay_witness :
    getParam (okMap (setup_simulation fsFresh "t.top" "c.dat" "out"
      [("steps", "1000")] none false)) "steps" = some "1000" ∧
    getParam (okMap (setup_simulation fsFresh "t.top" "c.dat" "out"
      [("steps", "1000")] none false)) "log_file" = some "logfile" ∧
    getParam (okMap (setup_simulation fsFresh "t.top" "c.dat" "out"
      [("steps", "1000")] none false)) "T" = none := by
  have h := setup_params_overlay fsFresh
    (okFS (setup_simulation fsFresh "t.top" "c.dat" "out"
      [("steps", "1000")] none false))
    "t.top" "c.dat" "out" [("steps", "1000")] none false
    (okMap (setup_simulation fsFresh "t.top" "c.dat" "out"
      [("steps", "1000")] none false))
    (okPath (setup_simulation fsFresh "t.top" "c.dat" "out"
      [("steps", "1000")] none false))
    rfl
  exact ⟨h.1 "steps" "1000" (by decide) rfl, h.2.1,
    h.2.2 "T" (by decide) rfl (by decide)⟩

/-- C2 counterexample: the output-file parameters set on lines 127–129
are written *before* the caller overlay, so a caller-supplied
`trajectory_file` does end up in the composed input file, displacing the
canonical `trajectory.dat` — refuting the claim that these keys cannot be
overridden and that a caller value never appears. -/
theorem setup_output_override_cex :
    (setup_simulation fsFresh "t.top" "c.dat" "out"
        [("trajectory_file", "hacked.dat")] none false).toOption.map
      (fun r => getParam r.2.1 "trajectory_file") =
      some (some "hacked.dat") :=
  rfl

/-- C2 (amended): only `log_file` is fixed to its canonical name
(`"logfile"`) regardless of caller input, because it is assigned after
the caller overlay.  The trajectory, energy and last-configuration file
names are canonical *defaults* (`trajectory.dat`, `energy.dat`,
`last_conf.dat`): they stand when the caller does not supply the key, but
a caller-supplied value overrides them. -/
theorem setup_output_files_canonical (fs fsr : FS) (t d o : String)
    (ps : List (String × String)) (f : Option (List (String × String)))
    (k : Bool) (m : InputFile) (p : String)
    (h : setup_simulation fs t d o ps f k = .ok (fsr, m, p)) :
    getParam m "log_file" = some "logfile" ∧
    (lookupLast "trajectory_file" ps = none →
      getParam m "trajectory_file" = some "trajectory.dat") ∧
    (∀ v, lookupLast "trajectory_file" ps = some v →
      getParam m "trajectory_file" = some v) ∧
    (lookupLast "energy_file" ps = none →
      getParam m "energy_file" = some "energy.dat") ∧
    (∀ v, lookupLast "energy_file" ps = some v →
      getParam m "energy_file" = some v) ∧
    (lookupLast "lastconf_file" ps = none →
      getParam m "lastconf_file" = some "last_conf.dat") ∧
    (∀ v, lookupLast "lastconf_file" ps = some v →
      getParam m "lastconf_file" = some v) := by
  obtain ⟨hm, -⟩ := setup_simulation_ok_input fs fsr t d o ps f k m p h
  subst hm
  refine ⟨?_, ?_, ?_, ?_, ?_, ?_, ?_⟩
  · rw [getParam_composedInput]
    rw [if_pos rfl]
  · intro hnone
    rw [getParam_composedInput, if_neg (by decide), hnone]
    by_cases hf : pyTruthy f = true <;> simp [fixedBase, hf]
  · intro v hv
    rw [getParam_composedInput, if_neg (by decide), hv]
  · intro hnone
    rw [getParam_composedInput, if_neg (by decide), hnone]
    by_cases hf : pyTruthy f = true <;> simp [fixedBase, hf]
  · intro v hv
    rw [getParam_composedInput, if_neg (by decide), hv]
  · intro hnone
    rw [getParam_composedInput, if_neg (by decide), hnone]
    by_cases hf : pyTruthy f = true <;> simp [fixedBase, hf]
  · intro v hv
    rw [getParam_composedInput, if_neg (by decide), hv]

/-- Witness for C2 (amended): a composition without caller overrides
yields the canonical output-file names. -/
theorem setup_output_files_canonical_witness :
    getParam (okMap (setup_simulation fsFresh "t.top" "c.dat" "out" []
      none false)) "log_file" = some "logfile" ∧
    getParam (okMap (setup_simulation fsFresh "t.top" "c.dat" "out" []
      none false)) "trajectory_file" = some "trajectory.dat" ∧
    getParam (okMap (setup_simulation fsFresh "t.top" "c.dat" "out" []
      none false)) "energy_file" = some "energy.dat" ∧
    getParam (okMap (setup_simulation fsFresh "t.top" "c.dat" "out" []
      none false)) "lastconf_file" = some "last_conf.dat" := by
  have h := setup_output_files_canonical fsFresh
    (okFS (setup_simulation fsFresh "t.top" "c.dat" "out" [] none false))
    "t.top" "c.dat" "out" [] none false
    (okMap (setup_simulation fsFresh "t.top" "c.dat" "out" [] none false))
    (okPath (setup_simulation fsFresh "t.top" "c.dat" "out" [] none false))
    rfl
  exact ⟨h.1, h.2.1 rfl, h.2.2.2.1 rfl, h.2.2.2.2.2.1 rfl⟩

end OxdnaBoilerplate

namespace OxdnaBoilerplate

theorem setup_build_empty_forces (fs2 : FS) (t d o : String)
    (ps : List (String × String)) :
    setup_build fs2 t d o ps (some []) = setup_build fs2 t d o ps none := by
  rw [setup_build, setup_build]
  have h1 : pyTruthy (some ([] : List (String × String))) = false := rfl
  have h2 : pyTruthy (none : Option (List (String × String))) = false := rfl
  simp only [h1, h2, Bool.false_eq_true, if_false]

theorem preKill_facts (fs fs1 : FS) (o : String) (k : Bool) (q : String)
    (h0 : lookupEntry fs.files q = none)
    (hpre : (if (k && (o != "./")) = true then
        (if fs.existsPath o = true then fs.rmtree o else Except.ok fs)
      else Except.ok fs) = .ok fs1) :
    fs1.cwd = fs.cwd ∧ lookupEntry fs1.files q = none := by
  by_cases hko : (k && (o != "./")) = true
  · rw [if_pos hko] at hpre
    by_cases hex : fs.existsPath o = true
    · rw [if_pos hex] at hpre
      obtain ⟨-, hfs1⟩ := rmtree_ok _ _ _ hpre
      subst hfs1
      refine ⟨rfl, ?_⟩
      show lookupEntry (filterOut
        (fun e => underOrEq (resolvePath fs.cwd o) e.1) fs.files) q = none
      rw [lookupEntry_filterOut]
      by_cases hu : underOrEq (resolvePath fs.cwd o) q = true
      · rw [if_pos hu]
      · rw [if_neg hu]; exact h0
    · rw [if_neg hex] at hpre
      injection hpre with h1
      subst h1
      exact ⟨rfl, h0⟩
  · rw [if_neg hko] at hpre
    injection hpre with h1
    subst h1
    exact ⟨rfl, h0⟩

/-- C9: passing an empty forces dictionary behaves exactly like passing
no forces at all (`if force_dict:` is Python truthiness, and both `None`
and `{}` are falsy): the two calls are equal as functions of the
filesystem; on success none of the three external-force keys appears in
the composed input file (unless the caller put them in `parameters`), and
no forces side file is written (given that none pre-existed at that path
and the path does not collide with the other artifacts). -/
theorem empty_forces_same_as_none (fs : FS) (t d o : String)
    (ps : List (String × String)) (k : Bool) :
    setup_simulation fs t d o ps (some []) k =
      setup_simulation fs t d o ps none k ∧
    ∀ fsr m p, setup_simulation fs t d o ps (some []) k = .ok (fsr, m, p) →
      (lookupLast "external_forces_as_JSON" ps = none →
        getParam m "external_forces_as_JSON" = none) ∧
      (lookupLast "external_forces" ps = none →
        getParam m "external_forces" = none) ∧
      (lookupLast "external_forces_file" ps = none →
        getParam m "external_forces_file" = none) ∧
      (lookupEntry fs.files (forcesPath fs.cwd o) = none →
        forcesPath fs.cwd o ≠ resolvePath fs.cwd (pjoin o (basename t)) →
        forcesPath fs.cwd o ≠ resolvePath fs.cwd (pjoin o (basename d)) →
        forcesPath fs.cwd o ≠ resolvePath fs.cwd (pjoin o "last_conf.dat") →
        forcesPath fs.cwd o ≠ resolvePath fs.cwd (pjoin o "input") →
        lookupEntry fsr.files (forcesPath fs.cwd o) = none) := by
  constructor
  · rw [setup_simulation, setup_simulation]
    simp only [setup_build_empty_forces]
  · intro fsr m p h
    obtain ⟨hm, -⟩ := setup_simulation_ok_input fs fsr t d o ps (some []) k m p h
    subst hm
    refine ⟨?_, ?_, ?_, ?_⟩
    · intro hnone
      rw [getParam_composedInput, if_neg (by decide), hnone]
      rfl
    · intro hnone
      rw [getParam_composedInput, if_neg (by decide), hnone]
      rfl
    · intro hnone
      rw [getParam_composedInput, if_neg (by decide), hnone]
      rfl
    · intro h0 hn1 hn2 hn3 hn4
      obtain ⟨fs1, fs2, hpre, hmk, hb⟩ :=
        setup_simulation_ok_decompose fs fsr t d o ps (some []) k
          (composedInput t d ps (some [])) p h
      obtain ⟨-, hfs2⟩ := mkdir_ok _ _ _ hmk
      subst hfs2
      have hpf := preKill_facts fs fs1 o k (forcesPath fs.cwd o) h0 hpre
      have heff := setup_build_effect _ fsr t d o ps (some [])
        (composedInput t d ps (some [])) p hb
      have hcwd : (FS.mk fs1.cwd (resolvePath fs1.cwd o :: fs1.dirs)
          fs1.files).cwd = fs.cwd := hpf.1
      rw [hcwd] at heff
      have hfr := heff.2.2 (forcesPath fs.cwd o) hn1 hn2 hn3
        (fun hff => absurd hff (by decide)) hn4
      rw [hfr]
      exact hpf.2

/-- Witness for C9 on a concrete composition. -/
theorem empty_forces_same_as_none_witness :
    setup_simulation fsFresh "t.top" "c.dat" "out" [] (some []) false =
      setup_simulation fsFresh "t.top" "c.dat" "out" [] none false ∧
    getParam (okMap (setup_simulation fsFresh "t.top" "c.dat" "out" []
      (some []) false)) "external_forces" = none ∧
    lookupEntry (okFS (setup_simulation fsFresh "t.top" "c.dat" "out" []
      (some []) false)).files "/w/out/forces.json" = none := by
  have h := empty_forces_same_as_none fsFresh "t.top" "c.dat" "out" [] false
  have h2 := h.2
    (okFS (setup_simulation fsFresh "t.top" "c.dat" "out" [] (some []) false))
    (okMap (setup_simulation fsFresh "t.top" "c.dat" "out" [] (some []) false))
    (okPath (setup_simulation fsFresh "t.top" "c.dat" "out" [] (some []) false))
    rfl
  exact ⟨h.1, h2.2.1 rfl,
    h2.2.2.2 rfl (by decide) (by decide) (by decide) (by decide)⟩

end OxdnaBoilerplate

namespace OxdnaBoilerplate

/-- C3 counterexample: the guard on line 102 compares the string
`out_dir != "./"` literally instead of resolving the path.  With
`out_dir = "."` — which resolves to the current working directory — and
`kill_out_dir` set, the recursive deletion *is* performed: the
pre-existing file `old.txt` in the working directory is destroyed by
`rmtree(".")`'s content pass.  (The call then fails, because `rmtree`'s
final `os.rmdir(".")` raises `OSError(EINVAL)` — `mkdir` never runs and
the emptied directory survives — but the contents are already gone.)
This refutes the claim that the deletion is never performed when
`outputDir` resolves to the current working directory. -/
theorem setup_kill_deletes_cwd_cex :
    resolvePath fsDot.cwd "." = fsDot.cwd ∧
    lookupEntry fsDot.files "/w/old.txt" = some (.bytes "precious") ∧
    (setup_simulation fsDot "/src/t.top" "/src/c.dat" "." [] none
      true).toOption = none ∧
    lookupEntry (okFS (setup_simulation fsDot "/src/t.top" "/src/c.dat"
      "." [] none true)).files "/w/old.txt" = none ∧
    containsStr (okFS (setup_simulation fsDot "/src/t.top" "/src/c.dat"
      "." [] none true)).dirs "/w" = true :=
  ⟨rfl, rfl, rfl, rfl, rfl⟩

/-- C3 (amended): with `kill_out_dir` set and an existing `out_dir`:
when `out_dir` is the *literal string* `"./"` the deletion is skipped and
the call fails at `mkdir` with `FileExistsError`; on every successful
call the pre-existing tree is gone — each surviving file strictly under
the resolved output directory is one of the composition's own artifacts
and no pre-existing subdirectory survives; and the guard does not
resolve paths: for any other spelling whose final component is `"."` —
e.g. `out_dir = "."`, which resolves to the current working directory —
the contents are still recursively deleted, after which `shutil.rmtree`'s
final `os.rmdir` raises `OSError(EINVAL)`, so the call fails before
recreation with the emptied directory left in place. -/
theorem setup_kill_guard_is_literal (fs : FS) (t d o : String)
    (ps : List (String × String)) (f : Option (List (String × String)))
    (he : fs.existsPath o = true) :
    (o = "./" → setup_simulation fs t d o ps f true =
      .error (.fileExistsErr, fs)) ∧
    (∀ fsr m p, setup_simulation fs t d o ps f true = .ok (fsr, m, p) →
      ∀ q, pathUnder (resolvePath fs.cwd o) q = true →
        ((lookupEntry fsr.files q).isSome = true →
          q ∈ buildWritePaths fs.cwd t d o ∨ q = forcesPath fs.cwd o) ∧
        containsStr fsr.dirs q = false) ∧
    (lastComponentIsDot o = true →
      setup_simulation fs t d o ps f true =
        .error (.osErrorInvalid,
          { fs with
            dirs := filterOut
              (fun q => pathUnder (resolvePath fs.cwd o) q) fs.dirs,
            files := filterOut
              (fun e => pathUnder (resolvePath fs.cwd o) e.1) fs.files })) := by
  refine ⟨?_, ?_, ?_⟩
  · intro ho
    subst ho
    rw [setup_simulation]
    rw [if_neg (by simp)]
    rw [if_neg (by decide)]
    dsimp only
    rw [mkdir_exists_error fs "./" he]
  · intro fsr m p h q hq
    obtain ⟨fs1, fs2, hpre, hmk, hb⟩ :=
      setup_simulation_ok_decompose fs fsr t d o ps f true m p h
    by_cases ho : o = "./"
    · subst ho
      rw [if_neg (by decide)] at hpre
      injection hpre with h1
      subst h1
      rw [mkdir_exists_error fs "./" he] at hmk
      cases hmk
    · have hko : (true && (o != "./")) = true := by
        simp [ho]
      rw [if_pos hko, if_pos he] at hpre
      obtain ⟨-, hfs1⟩ := rmtree_ok _ _ _ hpre
      subst hfs1
      obtain ⟨-, hfs2⟩ := mkdir_ok _ _ _ hmk
      subst hfs2
      have heff := setup_build_effect _ fsr t d o ps f m p hb
      have hcwd : (FS.mk
          (FS.mk fs.cwd
            (filterOut (fun q2 => underOrEq (resolvePath fs.cwd o) q2)
              fs.dirs)
            (filterOut (fun e => underOrEq (resolvePath fs.cwd o) e.1)
              fs.files)).cwd
          (resolvePath (FS.mk fs.cwd
            (filterOut (fun q2 => underOrEq (resolvePath fs.cwd o) q2)
              fs.dirs)
            (filterOut (fun e => underOrEq (resolvePath fs.cwd o) e.1)
              fs.files)).cwd o ::
            (FS.mk fs.cwd
              (filterOut (fun q2 => underOrEq (resolvePath fs.cwd o) q2)
                fs.dirs)
              (filterOut (fun e => underOrEq (resolvePath fs.cwd o) e.1)
                fs.files)).dirs)
          (FS.mk fs.cwd
            (filterOut (fun q2 => underOrEq (resolvePath fs.cwd o) q2)
              fs.dirs)
            (filterOut (fun e => underOrEq (resolvePath fs.cwd o) e.1)
              fs.files)).files).cwd = fs.cwd := rfl
      rw [hcwd] at heff
      have hund : underOrEq (resolvePath fs.cwd o) q = true := by
        rw [underOrEq]
        by_cases hqr : q = resolvePath fs.cwd o
        · rw [if_pos hqr]
        · rw [if_neg hqr]; exact hq
      constructor
      · intro hsome
        by_cases h1 : q = resolvePath fs.cwd (pjoin o (basename t))
        · exact Or.inl (by rw [h1, buildWritePaths]; exact List.mem_cons_self _ _)
        by_cases h2 : q = resolvePath fs.cwd (pjoin o (basename d))
        · refine Or.inl ?_
          rw [h2, buildWritePaths]
          exact List.mem_cons_of_mem _ (List.mem_cons_self _ _)
        by_cases h3 : q = resolvePath fs.cwd (pjoin o "last_conf.dat")
        · refine Or.inl ?_
          rw [h3, buildWritePaths]
          exact List.mem_cons_of_mem _
            (List.mem_cons_of_mem _ (List.mem_cons_self _ _))
        by_cases h4 : q = forcesPath fs.cwd o
        · exact Or.inr h4
        by_cases h5 : q = resolvePath fs.cwd (pjoin o "input")
        · refine Or.inl ?_
          rw [h5, buildWritePaths]
          exact List.mem_cons_of_mem _ (List.mem_cons_of_mem _
            (List.mem_cons_of_mem _ (List.mem_cons_self _ _)))
        have hfr := heff.2.2 q h1 h2 h3 (fun _ => h4) h5
        have hnone2 : lookupEntry (filterOut
            (fun e => underOrEq (resolvePath fs.cwd o) e.1) fs.files) q =
            none := by
          rw [lookupEntry_filterOut, if_pos hund]
        rw [hfr, hnone2] at hsome
        cases hsome
      · rw [heff.2.1]
        show containsStr (resolvePath fs.cwd o ::
          filterOut (fun q2 => underOrEq (resolvePath fs.cwd o) q2)
            fs.dirs) q = false
        rw [containsStr]
        have hqr : q ≠ resolvePath fs.cwd o := pathUnder_ne_self _ _ hq
        rw [if_neg hqr, containsStr_filterOut, if_pos hund]
  · intro hdot
    have ho : o ≠ "./" := by
      intro he2
      rw [he2] at hdot
      exact absurd hdot (by decide)
    rw [setup_simulation]
    rw [if_neg (by simp)]
    have hko : (true && (o != "./")) = true := by
      simp [ho]
    rw [if_pos hko, if_pos he]
    rw [rmtree_dot_error fs o hdot]

/-- Witness for C3 (amended): composing with `kill_out_dir` into the
existing `/w/out` removes the stale file it contained. -/
theorem setup_kill_guard_is_literal_witness :
    fsStale.existsPath "out" = true ∧
    (lookupEntry (okFS (setup_simulation fsStale "t.top" "c.dat" "out" []
      none true)).files "/w/out/stale.txt").isSome = false ∧
    containsStr (okFS (setup_simulation fsStale "t.top" "c.dat" "out" []
      none true)).dirs "/w/out/stale.txt" = false := by
  have h := (setup_kill_guard_is_literal fsStale "t.top" "c.dat" "out" []
    none (by decide)).2.1
    (okFS (setup_simulation fsStale "t.top" "c.dat" "out" [] none true))
    (okMap (setup_simulation fsStale "t.top" "c.dat" "out" [] none true))
    (okPath (setup_simulation fsStale "t.top" "c.dat" "out" [] none true))
    rfl "/w/out/stale.txt" (by decide)
  refine ⟨by decide, ?_, h.2⟩
  cases hv : (lookupEntry (okFS (setup_simulation fsStale "t.top" "c.dat"
      "out" [] none true)).files "/w/out/stale.txt").isSome
  · rfl
  · have := h.1 hv
    revert this
    decide

end OxdnaBoilerplate

namespace OxdnaBoilerplate

/-- C5 counterexample: retrying composition into a partially-built
directory does not succeed.  `/w/out` already contains the destination
copy of the topology, yet the call (without `kill_out_dir`) fails with
the directory-conflict error instead of skipping the existing copy —
refuting the claim that such a call succeeds. -/
theorem setup_partial_retry_fails_cex :
    fsPartial.existsPath "out" = true ∧
    lookupEntry fsPartial.files "/w/out/t.top" = some (.bytes "topdata") ∧
    setup_simulation fsPartial "t.top" "c.dat" "out" [] none false =
      .error (.directoryConflict, fsPartial) :=
  ⟨rfl, rfl, rfl⟩

/-- C5 (amended): composition cannot be resumed into a partially-built
directory: with `kill_out_dir` unset an existing directory raises the
conflict error, and with it set the directory is wiped (unless it is the
literal `"./"`, which then fails at `mkdir`).  Consequently every
successful composition runs in a freshly created directory, the
skip-if-exists branches never fire, and topology / configuration /
last-configuration are always copied: on success (into a previously
absent, clean output directory with non-colliding artifact paths) the
destination files hold exactly the sources' contents and the
last-configuration seed always exists. -/
theorem setup_fresh_always_copies (fs : FS) (t d o : String)
    (ps : List (String × String)) (f : Option (List (String × String)))
    (k : Bool)
    (hne : fs.existsPath o = false)
    (hclean : ∀ q, pathUnder (resolvePath fs.cwd o) q = true →
      lookupEntry fs.files q = none ∧ containsStr fs.dirs q = false)
    (hut : pathUnder (resolvePath fs.cwd o)
      (resolvePath fs.cwd (pjoin o (basename t))) = true)
    (hud : pathUnder (resolvePath fs.cwd o)
      (resolvePath fs.cwd (pjoin o (basename d))) = true)
    (htd : resolvePath fs.cwd (pjoin o (basename d)) ≠
      resolvePath fs.cwd (pjoin o (basename t)))
    (htl : resolvePath fs.cwd (pjoin o (basename t)) ≠
      resolvePath fs.cwd (pjoin o "last_conf.dat"))
    (hti : resolvePath fs.cwd (pjoin o (basename t)) ≠
      resolvePath fs.cwd (pjoin o "input"))
    (hdi : resolvePath fs.cwd (pjoin o (basename d)) ≠
      resolvePath fs.cwd (pjoin o "input"))
    (hli : resolvePath fs.cwd (pjoin o "last_conf.dat") ≠
      resolvePath fs.cwd (pjoin o "input"))
    (htf : resolvePath fs.cwd (pjoin o (basename t)) ≠
      forcesPath fs.cwd o)
    (hdf : resolvePath fs.cwd (pjoin o (basename d)) ≠
      forcesPath fs.cwd o)
    (hlf : resolvePath fs.cwd (pjoin o "last_conf.dat") ≠
      forcesPath fs.cwd o)
    (hsrc : resolvePath fs.cwd d ≠
      resolvePath fs.cwd (pjoin o (basename t))) :
    ∀ fsr m p, setup_simulation fs t d o ps f k = .ok (fsr, m, p) →
      ∃ tD dD, fs.lookupFile t = some tD ∧ fs.lookupFile d = some dD ∧
        lookupEntry fsr.files
          (resolvePath fs.cwd (pjoin o (basename t))) = some tD ∧
        lookupEntry fsr.files
          (resolvePath fs.cwd (pjoin o (basename d))) = some dD ∧
        lookupEntry fsr.files
          (resolvePath fs.cwd (pjoin o "last_conf.dat")) = some dD := by
  intro fsr m p h
  obtain ⟨fs1, fs2, hpre, hmk, hb⟩ :=
    setup_simulation_ok_decompose fs fsr t d o ps f k m p h
  have hif : (if (k && (o != "./")) = true then
      (if fs.existsPath o = true then fs.rmtree o else Except.ok fs)
    else Except.ok fs) = Except.ok fs := by
    by_cases hko : (k && (o != "./")) = true
    · rw [if_pos hko, hne]
      rw [if_neg (by simp)]
    · rw [if_neg hko]
  rw [hif] at hpre
  injection hpre with h1
  subst h1
  obtain ⟨-, hfs2⟩ := mkdir_ok _ _ _ hmk
  subst hfs2
  have hnt : (FS.mk fs.cwd (resolvePath fs.cwd o :: fs.dirs)
      fs.files).existsPath (pjoin o (basename t)) = false := by
    rw [FS.existsPath]
    show (containsStr (resolvePath fs.cwd o :: fs.dirs)
        (resolvePath fs.cwd (pjoin o (basename t))) ||
      (lookupEntry fs.files
        (resolvePath fs.cwd (pjoin o (basename t)))).isSome) = false
    rw [containsStr, if_neg (pathUnder_ne_self _ _ hut),
      (hclean _ hut).2, (hclean _ hut).1]
    rfl
  have hnd : (FS.mk fs.cwd (resolvePath fs.cwd o :: fs.dirs)
      fs.files).existsPath (pjoin o (basename d)) = false := by
    rw [FS.existsPath]
    show (containsStr (resolvePath fs.cwd o :: fs.dirs)
        (resolvePath fs.cwd (pjoin o (basename d))) ||
      (lookupEntry fs.files
        (resolvePath fs.cwd (pjoin o (basename d)))).isSome) = false
    rw [containsStr, if_neg (pathUnder_ne_self _ _ hud),
      (hclean _ hud).2, (hclean _ hud).1]
    rfl
  obtain ⟨tD, dD, htD, hdD, hc1, hc2, hc3⟩ :=
    setup_build_copies _ fsr t d o ps f m p hb hnt hnd htd hsrc htl hti hdi
      hli (fun _ => htf) (fun _ => hdf) (fun _ => hlf)
  exact ⟨tD, dD, htD, hdD, hc1, hc2, hc3⟩

/-- Witness for C5 (amended): a concrete fresh composition copies both
sources and seeds the last configuration. -/
theorem setup_fresh_always_copies_witness :
    lookupEntry (okFS (setup_simulation fsFresh "t.top" "c.dat" "out" []
      none false)).files "/w/out/t.top" = some (.bytes "topdata") ∧
    lookupEntry (okFS (setup_simulation fsFresh "t.top" "c.dat" "out" []
      none false)).files "/w/out/c.dat" = some (.bytes "confdata") ∧
    lookupEntry (okFS (setup_simulation fsFresh "t.top" "c.dat" "out" []
      none false)).files "/w/out/last_conf.dat" =
      some (.bytes "confdata") := by
  have hclean : ∀ q, pathUnder (resolvePath fsFresh.cwd "out") q = true →
      lookupEntry fsFresh.files q = none ∧
      containsStr fsFresh.dirs q = false := by
    intro q hqu
    constructor
    · by_cases e1 : q = "/w/t.top"
      · rw [e1] at hqu; exact absurd hqu (by decide)
      · by_cases e2 : q = "/w/c.dat"
        · rw [e2] at hqu; exact absurd hqu (by decide)
        · show lookupEntry [("/w/t.top", FileData.bytes "topdata"),
            ("/w/c.dat", FileData.bytes "confdata")] q = none
          rw [lookupEntry, if_neg e1]
          rw [lookupEntry, if_neg e2]
          rfl
    · by_cases e1 : q = "/"
      · rw [e1] at hqu; exact absurd hqu (by decide)
      · by_cases e2 : q = "/w"
        · rw [e2] at hqu; exact absurd hqu (by decide)
        · show containsStr ["/", "/w"] q = false
          rw [containsStr, if_neg e1]
          rw [containsStr, if_neg e2]
          rfl
  obtain ⟨tD, dD, htD, hdD, hc1, hc2, hc3⟩ :=
    setup_fresh_always_copies fsFresh "t.top" "c.dat" "out" [] none false
      (by decide) hclean (by decide) (by decide) (by decide) (by decide)
      (by decide) (by decide) (by decide) (by decide) (by decide)
      (by decide) (by decide)
      (okFS (setup_simulation fsFresh "t.top" "c.dat" "out" [] none false))
      (okMap (setup_simulation fsFresh "t.top" "c.dat" "out" [] none false))
      (okPath (setup_simulation fsFresh "t.top" "c.dat" "out" [] none false))
      rfl
  have ht2 : some (FileData.bytes "topdata") = some tD := htD
  have hd2 : some (FileData.bytes "confdata") = some dD := hdD
  cases ht2
  cases hd2
  exact ⟨hc1, hc2, hc3⟩

end OxdnaBoilerplate
